import Mathlib

/-! Shallow embedding of the OBD-II diagnostic core of `obd_diagnostic_app.py`:
the protocol framer (`send_command`), the session initializer (`connect_obd`),
the metric decoder (`parse_pid_response`), the trouble-code decoder (`read_dtc`),
the clear-codes operation (`clear_dtc`) and one cycle of the polling loop
(`poll_cycle`).  Numeric results are modelled over `ℚ`; Python's `int(s, 16)`
is modelled by `pyIntHex`; the shared socket is modelled by an `Option Unit`
field plus an explicit script of receive events. -/

-- Constants from the source.

def TIMEOUT : Nat := 2

def PID_SPEED : String := "010D"

def PID_RPM : String := "010C"

def PID_ENGINE_TEMP : String := "0105"

def PID_FUEL_LEVEL : String := "012F"

def PID_INTAKE_PRESSURE : String := "010B"

def PID_FIAT_TURBO_PRESSURE : String := "015F"

def PID_FIAT_CLUTCH_STATUS : String := "0160"

def PID_TOYOTA_FUEL_CONSUMPTION : String := "015E"

def PID_TOYOTA_HYBRID_BATTERY : String := "01A2"

def PID_VAG_BOOST_PRESSURE : String := "01A6"

def PID_VAG_OIL_TEMP : String := "015C"

def CMD_RESET : String := "ATZ"

def CMD_VERSION : String := "ATI"

def CMD_ECHO_OFF : String := "ATE0"

def CMD_HEADERS_OFF : String := "ATH0"

def CMD_LINEFEEDS_OFF : String := "ATL0"

def CMD_AUTO_PROTOCOL : String := "ATSP0"

def CMD_KWP2000 : String := "ATSP4"

def CMD_ISO9141 : String := "ATSP3"

def CMD_CAN_11BIT_500K : String := "ATSP6"

def CMD_KWP1281 : String := "ATSP5"

def CMD_READ_DTC : String := "03"

def CMD_CLEAR_DTC : String := "04"

-- String utilities mirroring the Python operations used by the source.

/-- Bool test: does the pattern list occur as a prefix of the second list
(`str.startswith` on character lists, pattern first). -/
def strStarts : List Char → List Char → Bool
  | [], _ => true
  | _ :: _, [] => false
  | p :: ps, c :: cs => p == c && strStarts ps cs

/-- Bool test: does the pattern occur as a contiguous sublist (Python's
`pat in hay` on strings, pattern first). -/
def hasSub (pat : List Char) : List Char → Bool
  | [] => strStarts pat []
  | c :: cs => strStarts pat (c :: cs) || hasSub pat cs

/-- Python's `pat in hay` for strings: `strHas hay pat`. -/
def strHas (hay pat : String) : Bool :=
  hasSub pat.data hay.data

/-- The six ASCII whitespace characters recognized by Python's `str.strip`
and `int`. -/
def pyWS (c : Char) : Bool :=
  c == ' ' || c == '\t' || c == '\n' || c == '\r' || c == '\x0b' || c == '\x0c'

/-- Python's `str.strip()` on a character list. -/
def stripWS (l : List Char) : List Char :=
  ((l.dropWhile pyWS).reverse.dropWhile pyWS).reverse

/-- `response.replace(" ", "")` as used by the decoders. -/
def pyStripSpaces (s : String) : List Char :=
  s.data.filter (· != ' ')

-- Model of Python's `int(s, 16)`.

/-- Value of one hexadecimal digit, `none` for a non-digit. -/
def hexVal (c : Char) : Option Nat :=
  if '0' ≤ c ∧ c ≤ '9' then some (c.toNat - '0'.toNat)
  else if 'a' ≤ c ∧ c ≤ 'f' then some (c.toNat - 'a'.toNat + 10)
  else if 'A' ≤ c ∧ c ≤ 'F' then some (c.toNat - 'A'.toNat + 10)
  else none

/-- Digits of a base-16 literal after the first digit: single underscores are
permitted between digits, as in Python. -/
def hexDigitsGo (acc : Nat) : List Char → Option Nat
  | [] => some acc
  | '_' :: c :: cs =>
    match hexVal c with
    | some v => hexDigitsGo (acc * 16 + v) cs
    | none => none
  | c :: cs =>
    match hexVal c with
    | some v => hexDigitsGo (acc * 16 + v) cs
    | none => none

/-- A nonempty run of hex digits (with embedded single underscores). -/
def startDigits : List Char → Option Nat
  | [] => none
  | c :: cs =>
    match hexVal c with
    | some v => hexDigitsGo v cs
    | none => none

/-- The part of a Python base-16 literal after the optional sign: an optional
`0x`/`0X` prefix (itself optionally followed by one underscore) and then
digits. -/
def pyIntHexCore : List Char → Option Nat
  | '0' :: c :: cs =>
    if c == 'x' || c == 'X' then
      match cs with
      | '_' :: rest => startDigits rest
      | rest => startDigits rest
    else startDigits ('0' :: c :: cs)
  | l => startDigits l

/-- Python's `int(s, 16)`: surrounding whitespace, an optional sign, an
optional `0x` prefix, then hex digits with single underscores. -/
def pyIntHex (l : List Char) : Option Int :=
  let t := ((l.dropWhile pyWS).reverse.dropWhile pyWS).reverse
  match t with
  | '+' :: rest => (pyIntHexCore rest).map (fun n => (n : Int))
  | '-' :: rest => (pyIntHexCore rest).map (fun n => -(n : Int))
  | rest => (pyIntHexCore rest).map (fun n => (n : Int))

-- The metric decoder: `OBDConnection.parse_pid_response`.

/-- `parse_pid_response(response, pid)`: negative-marker and emptiness check,
space stripping, signature-substring check on `pid[2:4].lower()`, then the
per-PID formula applied to the trailing hex characters.  The Python
`try/except` around `int` is the `Option` plumbing; numbers are modelled in
`ℚ`. -/
def parse_pid_response (response : String) (pid : String) : Option ℚ :=
  if strHas response "NO DATA" = true ∨ strHas response "ERROR" = true ∨ response.data = [] then
    none
  else
    let r := pyStripSpaces response
    let sig := ((pid.data.drop 2).take 2).map Char.toLower
    if hasSub sig (r.map Char.toLower) = true then
      if pid = PID_SPEED then
        if 4 ≤ r.length then
          (pyIntHex (r.drop (r.length - 2))).map (fun z => (z : ℚ))
        else none
      else if pid = PID_RPM then
        if 6 ≤ r.length then
          match pyIntHex ((r.drop (r.length - 4)).take 2), pyIntHex (r.drop (r.length - 2)) with
          | some a, some b => some ((256 * (a : ℚ) + (b : ℚ)) / 4)
          | _, _ => none
        else none
      else if pid = PID_ENGINE_TEMP then
        if 4 ≤ r.length then
          (pyIntHex (r.drop (r.length - 2))).map (fun z => (z : ℚ) - 40)
        else none
      else if pid = PID_FUEL_LEVEL then
        if 4 ≤ r.length then
          (pyIntHex (r.drop (r.length - 2))).map (fun z => (z : ℚ) * 100 / 255)
        else none
      else if pid = PID_INTAKE_PRESSURE then
        if 4 ≤ r.length then
          (pyIntHex (r.drop (r.length - 2))).map (fun z => (z : ℚ))
        else none
      else if pid = PID_FIAT_TURBO_PRESSURE ∨ pid = PID_VAG_BOOST_PRESSURE then
        if 4 ≤ r.length then
          (pyIntHex (r.drop (r.length - 2))).map (fun z => (z : ℚ) * 2)
        else none
      else if pid = PID_FIAT_CLUTCH_STATUS then
        if 4 ≤ r.length then
          (pyIntHex (r.drop (r.length - 2))).map (fun z => (z : ℚ))
        else none
      else if pid = PID_TOYOTA_FUEL_CONSUMPTION then
        if 4 ≤ r.length then
          (pyIntHex (r.drop (r.length - 2))).map (fun z => (z : ℚ) / 10)
        else none
      else if pid = PID_TOYOTA_HYBRID_BATTERY then
        if 4 ≤ r.length then
          (pyIntHex (r.drop (r.length - 2))).map (fun z => (z : ℚ) * 100 / 255)
        else none
      else if pid = PID_VAG_OIL_TEMP then
        if 4 ≤ r.length then
          (pyIntHex (r.drop (r.length - 2))).map (fun z => (z : ℚ) - 40)
        else none
      else none
    else none

example : parse_pid_response "41 0D 00" PID_SPEED = some 0 := by decide

example : parse_pid_response "41 0D 3C" PID_SPEED = some 60 := by decide

example : parse_pid_response "41 0C 1A F8" PID_RPM = some 1726 := by
  with_unfolding_all rfl

example : parse_pid_response "41 05 7B" PID_ENGINE_TEMP = some 83 := by
  with_unfolding_all rfl

example : parse_pid_response "41 05 00" PID_ENGINE_TEMP = some (-40) := by
  with_unfolding_all rfl

example : parse_pid_response "NO DATA" PID_SPEED = none := by decide

example : parse_pid_response "410B+3" PID_INTAKE_PRESSURE = some 3 := by decide

-- The trouble-code decoder: the parsing loop of `OBDConnection.read_dtc`.

/-- The static trouble-code description dictionary `DTC_CODES`. -/
def DTC_CODES : List (String × String) := [
  ("P0100", "Mass or Volume Air Flow Circuit Malfunction"),
  ("P0101", "Mass or Volume Air Flow Circuit Range/Performance Problem"),
  ("P0102", "Mass or Volume Air Flow Circuit Low Input"),
  ("P0103", "Mass or Volume Air Flow Circuit High Input"),
  ("P0104", "Mass or Volume Air Flow Circuit Intermittent"),
  ("P0105", "Manifold Absolute Pressure/Barometric Pressure Circuit Malfunction"),
  ("P0106", "Manifold Absolute Pressure/Barometric Pressure Circuit Range/Performance Problem"),
  ("P0107", "Manifold Absolute Pressure/Barometric Pressure Circuit Low Input"),
  ("P0108", "Manifold Absolute Pressure/Barometric Pressure Circuit High Input"),
  ("P0109", "Manifold Absolute Pressure/Barometric Pressure Circuit Intermittent"),
  ("P0110", "Intake Air Temperature Circuit Malfunction"),
  ("P0111", "Intake Air Temperature Circuit Range/Performance Problem"),
  ("P0112", "Intake Air Temperature Circuit Low Input"),
  ("P0113", "Intake Air Temperature Circuit High Input"),
  ("P0114", "Intake Air Temperature Circuit Intermittent"),
  ("P0115", "Engine Coolant Temperature Circuit Malfunction"),
  ("P0116", "Engine Coolant Temperature Circuit Range/Performance Problem"),
  ("P0117", "Engine Coolant Temperature Circuit Low Input"),
  ("P0118", "Engine Coolant Temperature Circuit High Input"),
  ("P0119", "Engine Coolant Temperature Circuit Intermittent"),
  ("P0120", "Throttle Position Sensor/Switch A Circuit Malfunction"),
  ("P0121", "Throttle Position Sensor/Switch A Circuit Range/Performance Problem"),
  ("P0122", "Throttle Position Sensor/Switch A Circuit Low Input"),
  ("P0123", "Throttle Position Sensor/Switch A Circuit High Input"),
  ("P0124", "Throttle Position Sensor/Switch A Circuit Intermittent"),
  ("P0125", "Insufficient Coolant Temperature for Closed Loop Fuel Control"),
  ("P0126", "Insufficient Coolant Temperature for Stable Operation"),
  ("P0128", "Coolant Thermostat (Coolant Temperature Below Thermostat Regulating Temperature)"),
  ("P0130", "O2 Sensor Circuit Malfunction (Bank 1 Sensor 1)"),
  ("P0131", "O2 Sensor Circuit Low Voltage (Bank 1 Sensor 1)"),
  ("P0132", "O2 Sensor Circuit High Voltage (Bank 1 Sensor 1)"),
  ("P0133", "O2 Sensor Circuit Slow Response (Bank 1 Sensor 1)"),
  ("P0134", "O2 Sensor Circuit No Activity Detected (Bank 1 Sensor 1)"),
  ("P0135", "O2 Sensor Heater Circuit Malfunction (Bank 1 Sensor 1)"),
  ("P0171", "System Too Lean (Bank 1)"),
  ("P0172", "System Too Rich (Bank 1)"),
  ("P0300", "Random/Multiple Cylinder Misfire Detected"),
  ("P0301", "Cylinder 1 Misfire Detected"),
  ("P0302", "Cylinder 2 Misfire Detected"),
  ("P0303", "Cylinder 3 Misfire Detected"),
  ("P0304", "Cylinder 4 Misfire Detected")]

/-- The category-letter selection on the first character of a 4-character
group (`code_bytes[0]`): the if/elif chain of `read_dtc`, which leaves the
letter empty for characters other than 0, 1, 2, 3. -/
def dtcLetter (c : Char) : String :=
  if c == '0' then "P"
  else if c == '1' then "C"
  else if c == '2' then "B"
  else if c == '3' then "U"
  else ""

/-- The `while i < len(response) - 3` loop of `read_dtc`: consume the
space-stripped response in 4-character groups, skip all-zero groups, and pair
each surfaced code with its dictionary description (default "Unknown code").
A trailing group of fewer than 4 characters is not consumed. -/
def dtcLoop : List Char → List (String × String)
  | c0 :: c1 :: c2 :: c3 :: rest =>
    let tail := dtcLoop rest
    if [c0, c1, c2, c3] = "0000".data then tail
    else
      let full := dtcLetter c0 ++ String.mk [c1, c2, c3]
      (full, (List.lookup full DTC_CODES).getD "Unknown code") :: tail
  | _ => []

/-- The response-parsing part of `read_dtc`: negative-marker and emptiness
guard, space stripping, then the 4-character-group loop. -/
def read_dtc_parse (response : String) : List (String × String) :=
  if strHas response "NO DATA" = true ∨ strHas response "ERROR" = true ∨ response.data = [] then
    []
  else
    dtcLoop (pyStripSpaces response)

example : read_dtc_parse "0133" = [("P133", "Unknown code")] := by decide

example : read_dtc_parse "43 01 33" = [("301", "Unknown code")] := by decide

example : read_dtc_parse "01330171" = [("P133", "Unknown code"), ("P171", "Unknown code")] := by
  decide

example : read_dtc_parse "4301" = [("301", "Unknown code")] := by decide

example : read_dtc_parse "0000" = [] := by decide

example : read_dtc_parse "013300" = [("P133", "Unknown code")] := by decide

-- The connection state and the protocol framer: `OBDConnection.send_command`.

/-- The mutable connection attributes of `OBDConnection` that the modelled
operations read or write: the socket (held or not), the `is_connected` flag,
and the detected-protocol string. -/
structure ConnState where
  socket : Option Unit
  is_connected : Bool
  protocol_detected : Option String
deriving DecidableEq

/-- One result of a blocking `socket.recv` call inside `send_command`: a chunk
of bytes that arrived after `dt` seconds, an empty read (peer closed), or a
raised socket exception (such as `socket.timeout`, whose text is "timed out").
An exhausted script models a socket on which no further data ever arrives, so
the next blocking `recv` raises `socket.timeout`. -/
inductive RecvEvent where
  | chunk (data : String) (dt : Nat)
  | closed
  | exc (msg : String)
deriving DecidableEq

/-- The `while b'>' not in response and elapsed < TIMEOUT` read loop of
`send_command`: accumulate chunks until the prompt byte appears or the time
budget elapses; an empty read breaks; a raised exception propagates as
`Except.error`. -/
def recvLoop : String → Nat → List RecvEvent → Except String String
  | resp, elapsed, [] =>
    if strHas resp ">" = true ∨ TIMEOUT ≤ elapsed then Except.ok resp
    else Except.error "timed out"
  | resp, elapsed, e :: rest =>
    if strHas resp ">" = true ∨ TIMEOUT ≤ elapsed then Except.ok resp
    else
      match e with
      | RecvEvent.exc m => Except.error m
      | RecvEvent.closed => Except.ok resp
      | RecvEvent.chunk s dt => recvLoop (resp ++ s) (elapsed + dt) rest

/-- The response clean-up of `send_command`: strip, remove carriage returns,
collapse line feeds to spaces, remove the prompt character, strip again, and
remove a leading echo of the stripped command (the command had `"\r"`
appended before sending). -/
def normalizeResp (cmd raw : String) : String :=
  let d1 := stripWS raw.data
  let d2 := d1.filter (· != '\r')
  let d3 := d2.map (fun c => if c == '\n' then ' ' else c)
  let d4 := d3.filter (· != '>')
  let d5 := stripWS d4
  let cs := stripWS (cmd.data ++ ['\r'])
  if strStarts cs d5 = true then String.mk (stripWS (d5.drop cs.length))
  else String.mk d5

/-- `send_command(command)`: return "Not connected" when no socket is held;
otherwise run the read loop over the event script and either return the
normalized accumulated response or, when an exception was raised (including
`socket.timeout` from a blocking read), the string `"Error: " + str(e)`.
The method never assigns `self.is_connected` or `self.socket`, so the state
is returned unchanged. -/
def send_command (st : ConnState) (cmd : String) (evs : List RecvEvent) : String × ConnState :=
  if st.socket = none then ("Not connected", st)
  else
    match recvLoop "" 0 evs with
    | Except.error m => ("Error: " ++ m, st)
    | Except.ok raw => (normalizeResp cmd raw, st)

example : (send_command ⟨some (), false, none⟩ "ATZ" [RecvEvent.chunk "OK>" 0]).1 = "OK" := by
  decide

example : (send_command ⟨some (), true, none⟩ "010D" []).1 = "Error: timed out" := by decide

example : (send_command ⟨none, false, none⟩ "ATZ" []).1 = "Not connected" := by decide

example :
    (send_command ⟨some (), true, none⟩ "ATZ"
      [RecvEvent.chunk "ATZ\rELM327 v1.5\r\r>" 0]).1 = "ELM327 v1.5" := by decide

-- Vehicle profiles and the session initializer: `OBDConnection.connect_obd`.

/-- One entry of `VEHICLE_PROFILES`: primary and fallback protocol-select
commands plus the ordered vendor-specific PID mapping. -/
structure Profile where
  protocol_cmd : String
  fallback_cmd : String
  specific_pids : List (String × String)
deriving DecidableEq

/-- The "Fiat 500 Series 1" profile. -/
def fiatProfile : Profile :=
  { protocol_cmd := CMD_KWP2000, fallback_cmd := CMD_ISO9141,
    specific_pids := [("Turbo Pressure", PID_FIAT_TURBO_PRESSURE),
                      ("Clutch Status", PID_FIAT_CLUTCH_STATUS)] }

/-- The "Toyota C-HR/Corolla" profile. -/
def toyotaProfile : Profile :=
  { protocol_cmd := CMD_CAN_11BIT_500K, fallback_cmd := CMD_AUTO_PROTOCOL,
    specific_pids := [("Fuel Consumption", PID_TOYOTA_FUEL_CONSUMPTION),
                      ("Hybrid Battery", PID_TOYOTA_HYBRID_BATTERY)] }

/-- The "Volkswagen Group" profile. -/
def vagProfile : Profile :=
  { protocol_cmd := CMD_CAN_11BIT_500K, fallback_cmd := CMD_KWP1281,
    specific_pids := [("Boost Pressure", PID_VAG_BOOST_PRESSURE),
                      ("Oil Temperature", PID_VAG_OIL_TEMP)] }

/-- The `VEHICLE_PROFILES` table. -/
def VEHICLE_PROFILES : List (String × Profile) :=
  [("Fiat 500 Series 1", fiatProfile),
   ("Toyota C-HR/Corolla", toyotaProfile),
   ("Volkswagen Group", vagProfile)]

/-- One framer exchange inside a higher-level operation: the adapter's reply
function `f` applied to the command, with the command recorded on the trace
of sent commands. -/
def sendC (f : String → String) (tr : List String) (cmd : String) : String × List String :=
  (f cmd, tr ++ [cmd])

/-- The result of `connect_obd`: the new connection state, the returned
Boolean, the `responses` list accumulated for the `connected` signal, the
trace of commands sent, and the emitted message. -/
structure ConnResult where
  state : ConnState
  ok : Bool
  log : List String
  cmds : List String
  emitted : String
deriving DecidableEq

/-- `connect_obd()`: on a transport failure (`fail = true`, message
`failMsg`) the exception handler clears `is_connected`, closes and drops the
socket, and emits the error; otherwise the fixed setup sequence runs (only
the reset and version responses are kept in `responses`; the echo-off,
headers-off and line-feeds-off replies are discarded), then protocol
selection with the profile's fallback on a reply without "OK" (or the
auto-detect command without a profile), then the `ATDP` query whose reply is
stored and logged. -/
def connect_obd (st : ConnState) (prof : Option Profile) (fail : Bool) (failMsg : String)
    (f : String → String) : ConnResult :=
  if fail then
    { state := { socket := none, is_connected := false,
                 protocol_detected := st.protocol_detected },
      ok := false, log := [], cmds := [],
      emitted := "Connection error: " ++ failMsg }
  else
    let st1 : ConnState := { st with socket := some () }
    let tr0 : List String := []
    let p1 := sendC f tr0 CMD_RESET
    let log1 := ["Reset: " ++ p1.1]
    let p2 := sendC f p1.2 CMD_VERSION
    let log2 := log1 ++ ["Version: " ++ p2.1]
    let p3 := sendC f p2.2 CMD_ECHO_OFF
    let p4 := sendC f p3.2 CMD_HEADERS_OFF
    let p5 := sendC f p4.2 CMD_LINEFEEDS_OFF
    match prof with
    | some p =>
      let p6 := sendC f p5.2 p.protocol_cmd
      let tr7 := if strHas p6.1 "OK" = true then p6.2 else (sendC f p6.2 p.fallback_cmd).2
      let p8 := sendC f tr7 "ATDP"
      let log3 := log2 ++ ["Protocol: " ++ p8.1]
      { state := { st1 with is_connected := true, protocol_detected := some p8.1 },
        ok := true, log := log3, cmds := p8.2,
        emitted := String.intercalate "\n" log3 }
    | none =>
      let p6 := sendC f p5.2 CMD_AUTO_PROTOCOL
      let p7 := sendC f p6.2 "ATDP"
      let log3 := log2 ++ ["Protocol: " ++ p7.1]
      { state := { st1 with is_connected := true, protocol_detected := some p7.1 },
        ok := true, log := log3, cmds := p7.2,
        emitted := String.intercalate "\n" log3 }

-- On-demand trouble-code operations: `read_dtc` and `clear_dtc`.

/-- `read_dtc()`: return the empty list without sending anything when the
connected flag is unset or no socket is held; otherwise send "03" and parse
the reply.  The second component is the trace of commands sent. -/
def read_dtc (st : ConnState) (f : String → String) : List (String × String) × List String :=
  if st.is_connected = false ∨ st.socket = none then ([], [])
  else (read_dtc_parse (f CMD_READ_DTC), [CMD_READ_DTC])

/-- `clear_dtc()`: return `false` without sending anything when the connected
flag is unset or no socket is held; otherwise send "04" and succeed exactly
when the reply contains "OK".  The second component is the trace of commands
sent. -/
def clear_dtc (st : ConnState) (f : String → String) : Bool × List String :=
  if st.is_connected = false ∨ st.socket = none then (false, [])
  else (strHas (f CMD_CLEAR_DTC) "OK", [CMD_CLEAR_DTC])

-- One cycle of the polling loop: the body of `OBDConnection.run`.

/-- `name.lower().replace(" ", "_")`, the snapshot key derived from a
profile metric name. -/
def pyKey (s : String) : String :=
  String.mk ((s.data.map Char.toLower).map (fun c => if c == ' ' then '_' else c))

/-- The `for name, pid in specific_pids.items()` loop of `run`: one framer
exchange and one decode per profile-specific PID, in declared order, paired
with the trace of commands sent. -/
def pollSpecific (f : String → String) :
    List (String × String) → List (String × Option ℚ) × List String
  | [] => ([], [])
  | (name, pid) :: rest =>
    let res := f pid
    let t := pollSpecific f rest
    ((pyKey name, parse_pid_response res pid) :: t.1, pid :: t.2)

/-- One cycle of the `run` polling loop: the five standard PID requests in
fixed order, then (with a profile) the profile-specific requests in declared
order; the first component is the `data` dictionary emitted by
`data_received.emit`, in insertion order, and the second the trace of
commands sent. -/
def poll_cycle (prof : Option Profile) (f : String → String) :
    List (String × Option ℚ) × List String :=
  let d1 := ("speed", parse_pid_response (f PID_SPEED) PID_SPEED)
  let d2 := ("rpm", parse_pid_response (f PID_RPM) PID_RPM)
  let d3 := ("engine_temp", parse_pid_response (f PID_ENGINE_TEMP) PID_ENGINE_TEMP)
  let d4 := ("fuel_level", parse_pid_response (f PID_FUEL_LEVEL) PID_FUEL_LEVEL)
  let d5 := ("intake_pressure", parse_pid_response (f PID_INTAKE_PRESSURE) PID_INTAKE_PRESSURE)
  let base := [d1, d2, d3, d4, d5]
  let baseCmds := [PID_SPEED, PID_RPM, PID_ENGINE_TEMP, PID_FUEL_LEVEL, PID_INTAKE_PRESSURE]
  match prof with
  | some p =>
    let t := pollSpecific f p.specific_pids
    (base ++ t.1, baseCmds ++ t.2)
  | none => (base, baseCmds)

-- Helper notions used by the theorems below.

/-- Uppercase hex digit for a value below 16. -/
def hexDigit (n : Nat) : Char :=
  match n with
  | 0 => '0' | 1 => '1' | 2 => '2' | 3 => '3' | 4 => '4'
  | 5 => '5' | 6 => '6' | 7 => '7' | 8 => '8' | 9 => '9'
  | 10 => 'A' | 11 => 'B' | 12 => 'C' | 13 => 'D' | 14 => 'E' | 15 => 'F'
  | _ => '0'

/-- The two-digit uppercase hex rendering of one byte value. -/
def hexByteChars (n : Nat) : List Char :=
  [hexDigit (n / 16), hexDigit (n % 16)]

/-- Is the character a hexadecimal digit? -/
def isHexCh (c : Char) : Bool :=
  (hexVal c).isSome

set_option maxRecDepth 4096 in
theorem pyIntHex_hexByte : ∀ a < 256, pyIntHex (hexByteChars a) = some (a : Int) := by decide

set_option maxRecDepth 4096 in
theorem hexByte_isHex : ∀ a < 256, ∀ c ∈ hexByteChars a, isHexCh c = true := by decide

theorem strStarts_subset :
    ∀ (pat l : List Char), strStarts pat l = true → ∀ c ∈ pat, c ∈ l := by
  intro pat
  induction pat with
  | nil => intro l _ c hc; exact absurd hc (List.not_mem_nil c)
  | cons p ps ih =>
    intro l hs c hc
    cases l with
    | nil => exact absurd hs (by simp [strStarts])
    | cons a as =>
      simp only [strStarts, Bool.and_eq_true, beq_iff_eq] at hs
      rcases List.mem_cons.mp hc with h | h
      · exact List.mem_cons.mpr (Or.inl (h.trans hs.1))
      · exact List.mem_cons.mpr (Or.inr (ih as hs.2 c h))

theorem hasSub_subset :
    ∀ (pat l : List Char), hasSub pat l = true → ∀ c ∈ pat, c ∈ l := by
  intro pat l
  induction l with
  | nil =>
    intro hs c hc
    cases pat with
    | nil => exact absurd hc (List.not_mem_nil c)
    | cons p ps => exact absurd hs (by simp [hasSub, strStarts])
  | cons a as ih =>
    intro hs c hc
    simp only [hasSub, Bool.or_eq_true] at hs
    rcases hs with h | h
    · exact strStarts_subset pat (a :: as) h c hc
    · exact List.mem_cons.mpr (Or.inr (ih h c hc))

theorem hasSub_eq_false_of_not_mem (c0 : Char) {pat l : List Char}
    (hc : c0 ∈ pat) (hl : c0 ∉ l) : hasSub pat l = false := by
  cases h : hasSub pat l with
  | false => rfl
  | true => exact absurd (hasSub_subset pat l h c0 hc) hl

theorem strStarts_of_longer :
    ∀ (pat l : List Char), l.length < pat.length → strStarts pat l = false := by
  intro pat
  induction pat with
  | nil => intro l h; simp at h
  | cons p ps ih =>
    intro l h
    cases l with
    | nil => rfl
    | cons a as =>
      simp only [List.length_cons, Nat.succ_lt_succ_iff] at h
      simp [strStarts, ih as h]

theorem hasSub_eq_false_of_longer :
    ∀ (pat l : List Char), l.length < pat.length → hasSub pat l = false := by
  intro pat l
  induction l with
  | nil =>
    intro h
    cases pat with
    | nil => simp at h
    | cons p ps => simp [hasSub, strStarts]
  | cons a as ih =>
    intro h
    have h2 : as.length < pat.length := Nat.lt_of_le_of_lt (Nat.le_succ _) h
    simp [hasSub, strStarts_of_longer pat (a :: as) h, ih h2]

theorem filter_space_of_hex {l : List Char} (h : ∀ c ∈ l, isHexCh c = true) :
    l.filter (· != ' ') = l := by
  refine List.filter_eq_self.mpr ?_
  intro c hc
  have hx := h c hc
  rw [bne_iff_ne]
  intro he
  subst he
  exact absurd hx (by decide)

theorem allHex_cons {c : Char} {l : List Char} (hc : isHexCh c = true)
    (hl : ∀ x ∈ l, isHexCh x = true) : ∀ x ∈ c :: l, isHexCh x = true := by
  intro x hx
  rcases List.mem_cons.mp hx with h | h
  · subst h; exact hc
  · exact hl x h

theorem allHex_append {l1 l2 : List Char} (h1 : ∀ x ∈ l1, isHexCh x = true)
    (h2 : ∀ x ∈ l2, isHexCh x = true) : ∀ x ∈ l1 ++ l2, isHexCh x = true := by
  intro x hx
  rcases List.mem_append.mp hx with h | h
  · exact h1 x h
  · exact h2 x h

/-- A response that consists only of hex digits contains neither negative
marker and is unchanged by space removal. -/
theorem parse_clean (l : List Char) (hall : ∀ c ∈ l, isHexCh c = true) :
    strHas (String.mk l) "NO DATA" = false
    ∧ strHas (String.mk l) "ERROR" = false
    ∧ pyStripSpaces (String.mk l) = l := by
  refine ⟨?_, ?_, ?_⟩
  · apply hasSub_eq_false_of_not_mem 'N' (by decide)
    intro hmem
    exact absurd (hall 'N' hmem) (by decide)
  · apply hasSub_eq_false_of_not_mem 'R' (by decide)
    intro hmem
    exact absurd (hall 'R' hmem) (by decide)
  · exact filter_space_of_hex hall

-- C1: the metric-decoder formula table.

/-- C1 counterexample: the claim asserts that engine-speed payload bytes
(0x1A, 0xF8) decode to 1718.0 rpm, but the code's formula
(256 * 0x1A + 0xF8) / 4 evaluates to 1726.0 on the response "41 0C 1A F8". -/
theorem rpm_example_value_cex :
    parse_pid_response "41 0C 1A F8" PID_RPM = some 1726 ∧ (1726 : ℚ) ≠ 1718 := by
  constructor
  · with_unfolding_all rfl
  · norm_num

/-- C1 amended: for well-formed responses the decoder follows the fixed
formula table — speed is the last byte, engine speed is
(256 * highByte + lowByte) / 4, coolant temperature is the last byte minus
40, fuel level is the last byte * 100 / 255, intake pressure is the last
byte; the concrete examples decode as the formulas dictate, with
(0x1A, 0xF8) giving 1726.0 rpm (not 1718.0), 0x7B giving 83, 0x00 giving
-40, and speed payloads "00" and "3C" giving 0 and 60. -/
theorem metric_decoder_formulas :
    (∀ (a : Nat), a < 256 →
      parse_pid_response (String.mk ('4' :: '1' :: '0' :: 'D' ::hexByteChars a)) PID_SPEED
        = some ((a : ℚ)))
    ∧ (∀ (a : Nat), a < 256 → ∀ (b : Nat), b < 256 →
      parse_pid_response (String.mk ('4' :: '1' :: '0' :: 'C' ::(hexByteChars a ++ hexByteChars b)))
          PID_RPM = some ((256 * (a : ℚ) + (b : ℚ)) / 4))
    ∧ (∀ (a : Nat), a < 256 →
      parse_pid_response (String.mk ('4' :: '1' :: '0' :: '5' ::hexByteChars a)) PID_ENGINE_TEMP
        = some ((a : ℚ) - 40))
    ∧ (∀ (a : Nat), a < 256 →
      parse_pid_response (String.mk ('4' :: '1' :: '2' :: 'F' ::hexByteChars a)) PID_FUEL_LEVEL
        = some ((a : ℚ) * 100 / 255))
    ∧ (∀ (a : Nat), a < 256 →
      parse_pid_response (String.mk ('4' :: '1' :: '0' :: 'B' ::hexByteChars a)) PID_INTAKE_PRESSURE
        = some ((a : ℚ)))
    ∧ parse_pid_response "41 0C 1A F8" PID_RPM = some 1726
    ∧ parse_pid_response "41 05 7B" PID_ENGINE_TEMP = some 83
    ∧ parse_pid_response "41 05 00" PID_ENGINE_TEMP = some (-40)
    ∧ parse_pid_response "41 0D 00" PID_SPEED = some 0
    ∧ parse_pid_response "41 0D 3C" PID_SPEED = some 60 := by
  refine ⟨?_, ?_, ?_, ?_, ?_, ?_, ?_, ?_, ?_, ?_⟩
  · intro a ha
    obtain ⟨hN, hE, hr⟩ := parse_clean ('4' :: '1' :: '0' :: 'D' ::hexByteChars a)
      (allHex_cons (by decide) (allHex_cons (by decide) (allHex_cons (by decide)
        (allHex_cons (by decide) (hexByte_isHex a ha)))))
    rw [parse_pid_response, if_neg (by simp [hN, hE]), hr]
    have hlen : ('4' :: '1' :: '0' :: 'D' ::hexByteChars a).length = 6 := by simp [hexByteChars]
    have hsig : hasSub (((PID_SPEED.data.drop 2).take 2).map Char.toLower)
        (('4' :: '1' :: '0' :: 'D' ::hexByteChars a).map Char.toLower) = true := by
      simp +decide [hasSub, strStarts, PID_SPEED]
    rw [if_pos hsig, if_pos (by decide), if_pos (by omega)]
    have hdrop : List.drop (('4' :: '1' :: '0' :: 'D' ::hexByteChars a).length - 2)
        ('4' :: '1' :: '0' :: 'D' ::hexByteChars a) = hexByteChars a := by
      rw [hlen]; rfl
    rw [hdrop, pyIntHex_hexByte a ha]
    simp
  · intro a ha b hb
    obtain ⟨hN, hE, hr⟩ := parse_clean ('4' :: '1' :: '0' :: 'C' ::(hexByteChars a ++ hexByteChars b))
      (allHex_cons (by decide) (allHex_cons (by decide) (allHex_cons (by decide)
        (allHex_cons (by decide)
          (allHex_append (hexByte_isHex a ha) (hexByte_isHex b hb))))))
    rw [parse_pid_response, if_neg (by simp [hN, hE]), hr]
    have hlen : ('4' :: '1' :: '0' :: 'C' ::(hexByteChars a ++ hexByteChars b)).length = 8 := by
      simp [hexByteChars]
    have hsig : hasSub (((PID_RPM.data.drop 2).take 2).map Char.toLower)
        (('4' :: '1' :: '0' :: 'C' ::(hexByteChars a ++ hexByteChars b)).map Char.toLower) = true := by
      simp +decide [hasSub, strStarts, PID_RPM]
    rw [if_pos hsig, if_neg (by decide), if_pos (by decide), if_pos (by omega)]
    have hdrop1 : (List.drop (('4' :: '1' :: '0' :: 'C' ::(hexByteChars a ++ hexByteChars b)).length - 4)
        ('4' :: '1' :: '0' :: 'C' ::(hexByteChars a ++ hexByteChars b))).take 2 = hexByteChars a := by
      rw [hlen]
      simp [hexByteChars]
    have hdrop2 : List.drop (('4' :: '1' :: '0' :: 'C' ::(hexByteChars a ++ hexByteChars b)).length - 2)
        ('4' :: '1' :: '0' :: 'C' ::(hexByteChars a ++ hexByteChars b)) = hexByteChars b := by
      rw [hlen]
      simp [hexByteChars]
    rw [hdrop1, hdrop2, pyIntHex_hexByte a ha, pyIntHex_hexByte b hb]
    push_cast
    rfl
  · intro a ha
    obtain ⟨hN, hE, hr⟩ := parse_clean ('4' :: '1' :: '0' :: '5' ::hexByteChars a)
      (allHex_cons (by decide) (allHex_cons (by decide) (allHex_cons (by decide)
        (allHex_cons (by decide) (hexByte_isHex a ha)))))
    rw [parse_pid_response, if_neg (by simp [hN, hE]), hr]
    have hlen : ('4' :: '1' :: '0' :: '5' ::hexByteChars a).length = 6 := by simp [hexByteChars]
    have hsig : hasSub (((PID_ENGINE_TEMP.data.drop 2).take 2).map Char.toLower)
        (('4' :: '1' :: '0' :: '5' ::hexByteChars a).map Char.toLower) = true := by
      simp +decide [hasSub, strStarts, PID_ENGINE_TEMP]
    rw [if_pos hsig, if_neg (by decide), if_neg (by decide), if_pos (by decide),
      if_pos (by omega)]
    have hdrop : List.drop (('4' :: '1' :: '0' :: '5' ::hexByteChars a).length - 2)
        ('4' :: '1' :: '0' :: '5' ::hexByteChars a) = hexByteChars a := by
      rw [hlen]; rfl
    rw [hdrop, pyIntHex_hexByte a ha]
    simp
  · intro a ha
    obtain ⟨hN, hE, hr⟩ := parse_clean ('4' :: '1' :: '2' :: 'F' ::hexByteChars a)
      (allHex_cons (by decide) (allHex_cons (by decide) (allHex_cons (by decide)
        (allHex_cons (by decide) (hexByte_isHex a ha)))))
    rw [parse_pid_response, if_neg (by simp [hN, hE]), hr]
    have hlen : ('4' :: '1' :: '2' :: 'F' ::hexByteChars a).length = 6 := by simp [hexByteChars]
    have hsig : hasSub (((PID_FUEL_LEVEL.data.drop 2).take 2).map Char.toLower)
        (('4' :: '1' :: '2' :: 'F' ::hexByteChars a).map Char.toLower) = true := by
      simp +decide [hasSub, strStarts, PID_FUEL_LEVEL]
    rw [if_pos hsig, if_neg (by decide), if_neg (by decide), if_neg (by decide),
      if_pos (by decide), if_pos (by omega)]
    have hdrop : List.drop (('4' :: '1' :: '2' :: 'F' ::hexByteChars a).length - 2)
        ('4' :: '1' :: '2' :: 'F' ::hexByteChars a) = hexByteChars a := by
      rw [hlen]; rfl
    rw [hdrop, pyIntHex_hexByte a ha]
    simp
  · intro a ha
    obtain ⟨hN, hE, hr⟩ := parse_clean ('4' :: '1' :: '0' :: 'B' ::hexByteChars a)
      (allHex_cons (by decide) (allHex_cons (by decide) (allHex_cons (by decide)
        (allHex_cons (by decide) (hexByte_isHex a ha)))))
    rw [parse_pid_response, if_neg (by simp [hN, hE]), hr]
    have hlen : ('4' :: '1' :: '0' :: 'B' ::hexByteChars a).length = 6 := by simp [hexByteChars]
    have hsig : hasSub (((PID_INTAKE_PRESSURE.data.drop 2).take 2).map Char.toLower)
        (('4' :: '1' :: '0' :: 'B' ::hexByteChars a).map Char.toLower) = true := by
      simp +decide [hasSub, strStarts, PID_INTAKE_PRESSURE]
    rw [if_pos hsig, if_neg (by decide), if_neg (by decide), if_neg (by decide),
      if_neg (by decide), if_pos (by decide), if_pos (by omega)]
    have hdrop : List.drop (('4' :: '1' :: '0' :: 'B' ::hexByteChars a).length - 2)
        ('4' :: '1' :: '0' :: 'B' ::hexByteChars a) = hexByteChars a := by
      rw [hlen]; rfl
    rw [hdrop, pyIntHex_hexByte a ha]
    simp
  · with_unfolding_all rfl
  · with_unfolding_all rfl
  · with_unfolding_all rfl
  · decide
  · decide

/-- C1 witness: the speed formula applied at byte value 60. -/
theorem metric_decoder_formulas_witness :
    parse_pid_response (String.mk ('4' :: '1' :: '0' :: 'D' ::hexByteChars 60)) PID_SPEED
      = some ((60 : Nat) : ℚ) :=
  metric_decoder_formulas.1 60 (by norm_num)

-- C2: trouble-code group encoding ("0133" und the static table).

/-- C2: evaluating the trouble-code decoder at the group "0133" shows the
code bug: the decoder emits the 4-character code "P133" with the default
description, while the static table (which the decoder itself consults)
only knows the 5-character form "P0133"; no entry "P133" exists, so the
produced codes can never match the table. -/
theorem dtc_p0133_encoding :
    read_dtc_parse "0133" = [("P133", "Unknown code")]
    ∧ List.lookup "P0133" DTC_CODES
        = some "O2 Sensor Circuit Slow Response (Bank 1 Sensor 1)"
    ∧ List.lookup "P133" DTC_CODES = none := by decide

-- C8: category-letter selection on the first hex digit.

/-- C8 counterexample: a group whose first hex digit is outside 0-3 is not
skipped; "4301" produces the letterless entry ("301", "Unknown code") instead
of no entry. -/
theorem dtc_unknown_category_cex :
    read_dtc_parse "4301" = [("301", "Unknown code")] := by decide

/-- C8 amended: the first character of a 4-character group selects the
category letter by 0 to P, 1 to C, 2 to B, 3 to U, and any other first
character selects the empty letter; a non-padding group is always surfaced —
with an empty category letter its code is the bare 3-character suffix — and
only the all-zero padding group produces no entry. -/
theorem dtc_category_mapping :
    dtcLetter '0' = "P" ∧ dtcLetter '1' = "C" ∧ dtcLetter '2' = "B" ∧ dtcLetter '3' = "U"
    ∧ (∀ c : Char, c ≠ '0' → c ≠ '1' → c ≠ '2' → c ≠ '3' → dtcLetter c = "")
    ∧ (∀ s : String, s.data.length = 4 → (∀ c ∈ s.data, c ≠ ' ') →
        read_dtc_parse s =
          if s.data = "0000".data then []
          else [(dtcLetter (s.data.headD ' ') ++ String.mk (s.data.drop 1),
                 (List.lookup (dtcLetter (s.data.headD ' ') ++ String.mk (s.data.drop 1))
                    DTC_CODES).getD "Unknown code")]) := by
  refine ⟨rfl, rfl, rfl, rfl, ?_, ?_⟩
  · intro c h0 h1 h2 h3
    simp [dtcLetter, h0, h1, h2, h3]
  · intro s hlen hsp
    have hN : strHas s "NO DATA" = false := by
      apply hasSub_eq_false_of_longer
      simp [strHas, hlen]
    have hE : strHas s "ERROR" = false := by
      apply hasSub_eq_false_of_longer
      simp [strHas, hlen]
    have hne : s.data ≠ [] := by
      intro h
      rw [h] at hlen
      simp at hlen
    have hsp2 : pyStripSpaces s = s.data := by
      refine List.filter_eq_self.mpr ?_
      intro c hc
      exact bne_iff_ne.mpr (hsp c hc)
    rw [read_dtc_parse, if_neg (by simp [hN, hE, hne]), hsp2]
    rcases hd : s.data with _ | ⟨c0, _ | ⟨c1, _ | ⟨c2, _ | ⟨c3, rest⟩⟩⟩⟩ <;>
      rw [hd] at hlen <;> simp at hlen
    subst hlen
    simp only [dtcLoop, List.headD, List.drop]

/-- C8 witness: the amended group rule applied at the concrete group "1234"
(first digit 1, category C). -/
theorem dtc_category_mapping_witness :
    read_dtc_parse "1234" =
      if "1234".data = "0000".data then []
      else [(dtcLetter ("1234".data.headD ' ') ++ String.mk ("1234".data.drop 1),
             (List.lookup (dtcLetter ("1234".data.headD ' ') ++ String.mk ("1234".data.drop 1))
                DTC_CODES).getD "Unknown code")] :=
  dtc_category_mapping.2.2.2.2.2 "1234" (by decide) (by decide)

-- Event-script vocabulary for the framer theorems.

/-- Does the script consist only of data chunks (each blocking read returns
bytes)? -/
def chunksOnly : List RecvEvent → Bool
  | [] => true
  | RecvEvent.chunk _ _ :: rest => chunksOnly rest
  | _ => false

/-- Total time consumed by the chunk events of a script. -/
def totalTime : List RecvEvent → Nat
  | [] => 0
  | RecvEvent.chunk _ dt :: rest => dt + totalTime rest
  | _ :: rest => totalTime rest

/-- Concatenation of the data of the chunk events of a script. -/
def concatChunks : List RecvEvent → String
  | [] => ""
  | RecvEvent.chunk s _ :: rest => s ++ concatChunks rest
  | _ :: rest => concatChunks rest

theorem recvLoop_chunks :
    ∀ (evs : List RecvEvent) (resp : String) (elapsed : Nat),
      chunksOnly evs = true → TIMEOUT ≤ elapsed + totalTime evs →
      ∃ k, k ≤ evs.length ∧ recvLoop resp elapsed evs
        = Except.ok (resp ++ concatChunks (evs.take k)) := by
  intro evs
  induction evs with
  | nil =>
    intro resp elapsed _ htime
    simp only [totalTime, Nat.add_zero] at htime
    refine ⟨0, by simp, ?_⟩
    rw [recvLoop, if_pos (Or.inr htime)]
    simp [concatChunks, String.append_empty]
  | cons e rest ih =>
    intro resp elapsed hco htime
    cases e with
    | chunk s dt =>
      by_cases hstop : strHas resp ">" = true ∨ TIMEOUT ≤ elapsed
      · refine ⟨0, by simp, ?_⟩
        rw [recvLoop, if_pos hstop]
        simp [concatChunks, String.append_empty]
      · rw [recvLoop, if_neg hstop]
        have hco2 : chunksOnly rest = true := by simpa [chunksOnly] using hco
        have htime2 : TIMEOUT ≤ (elapsed + dt) + totalTime rest := by
          simp only [totalTime] at htime
          omega
        obtain ⟨k, hk, heq⟩ := ih (resp ++ s) (elapsed + dt) hco2 htime2
        refine ⟨k + 1, by simpa using hk, ?_⟩
        rw [heq]
        simp [concatChunks, String.append_assoc]
    | closed => simp [chunksOnly] at hco
    | exc m => simp [chunksOnly] at hco

-- C3: framer behaviour when the timeout elapses.

/-- Connected state with a held socket, shared by the framer theorems. -/
def stConn : ConnState := ⟨some (), true, none⟩

/-- C3 counterexample: the timeout elapses with no data received (the
blocking read raises `socket.timeout`), and `send_command` returns the error
text "Error: timed out" instead of the accumulated data after normalization
(which would be the empty string). -/
theorem send_timeout_error_text_cex :
    (send_command stConn "010D" []).1 = "Error: timed out"
    ∧ normalizeResp "010D" "" = ""
    ∧ ("Error: timed out" : String) ≠ "" := by
  refine ⟨by decide, by decide, by decide⟩

theorem strStarts_append_of :
    ∀ (pat l1 l2 : List Char), strStarts pat l1 = true → strStarts pat (l1 ++ l2) = true := by
  intro pat
  induction pat with
  | nil => intro l1 l2 _; rfl
  | cons p ps ih =>
    intro l1 l2 hs
    cases l1 with
    | nil => exact absurd hs (by simp [strStarts])
    | cons a as =>
      simp only [List.cons_append, strStarts, Bool.and_eq_true] at hs ⊢
      exact ⟨hs.1, ih as l2 hs.2⟩

theorem hasSub_append_of :
    ∀ (pat l1 l2 : List Char), hasSub pat l1 = true → hasSub pat (l1 ++ l2) = true := by
  intro pat l1
  induction l1 with
  | nil =>
    intro l2 hs
    cases pat with
    | nil => cases l2 <;> simp [hasSub, strStarts]
    | cons p ps => exact absurd hs (by simp [hasSub, strStarts])
  | cons a as ih =>
    intro l2 hs
    simp only [hasSub, Bool.or_eq_true] at hs
    simp only [List.cons_append, hasSub, Bool.or_eq_true]
    rcases hs with h | h
    · exact Or.inl (strStarts_append_of pat (a :: as) l2 h)
    · exact Or.inr (ih l2 h)

/-- When an all-chunk script runs out of events before the time budget is
spent and the prompt never arrives, the next blocking read raises
`socket.timeout` and the loop ends in an error, whatever data was
accumulated. -/
theorem recvLoop_exhaust :
    ∀ (evs : List RecvEvent) (resp : String) (elapsed : Nat),
      chunksOnly evs = true → elapsed + totalTime evs < TIMEOUT →
      strHas (resp ++ concatChunks evs) ">" = false →
      recvLoop resp elapsed evs = Except.error "timed out" := by
  intro evs
  induction evs with
  | nil =>
    intro resp elapsed _ htime hp
    simp only [totalTime, Nat.add_zero] at htime
    rw [concatChunks, String.append_empty] at hp
    have hcond : ¬ (strHas resp ">" = true ∨ TIMEOUT ≤ elapsed) := by
      rintro (h | h)
      · rw [hp] at h; simp at h
      · omega
    rw [recvLoop, if_neg hcond]
  | cons e rest ih =>
    intro resp elapsed hco htime hp
    cases e with
    | chunk s dt =>
      have hresp : strHas resp ">" = false := by
        cases hx : strHas resp ">" with
        | false => rfl
        | true =>
          have hx2 : hasSub (">".data) resp.data = true := hx
          have hall : strHas (resp ++ concatChunks (RecvEvent.chunk s dt :: rest)) ">"
              = true := by
            have := hasSub_append_of (">".data) resp.data
              (concatChunks (RecvEvent.chunk s dt :: rest)).data hx2
            simpa [strHas, String.data_append] using this
          rw [hp] at hall
          simp at hall
      have hcond : ¬ (strHas resp ">" = true ∨ TIMEOUT ≤ elapsed) := by
        rintro (h | h)
        · rw [hresp] at h; simp at h
        · simp only [totalTime] at htime; omega
      rw [recvLoop, if_neg hcond]
      apply ih (resp ++ s) (elapsed + dt)
      · simpa [chunksOnly] using hco
      · simp only [totalTime] at htime; omega
      · rw [String.append_assoc]
        simpa [concatChunks] using hp
    | closed => simp [chunksOnly] at hco
    | exc m => simp [chunksOnly] at hco

/-- C3 amended: when the configured time budget elapses while every blocking
read still returns data (no read ever blocks long enough to raise), the
framer returns the normalized accumulated data as an ordinary string; but
when a blocking read raises `socket.timeout` — whenever the script of
arriving chunks ends before the budget is spent without the prompt, with or
without earlier partial data — the caught exception makes `send_command`
return the error text "Error: timed out" and the accumulated data is
discarded. -/
theorem send_timeout_returns_accumulated :
    (∀ (st : ConnState) (cmd : String) (evs : List RecvEvent),
      st.socket = some () → chunksOnly evs = true → TIMEOUT ≤ totalTime evs →
      ∃ k, k ≤ evs.length ∧
        send_command st cmd evs = (normalizeResp cmd (concatChunks (evs.take k)), st))
    ∧ (∀ (st : ConnState) (cmd : String) (evs : List RecvEvent),
      st.socket = some () → chunksOnly evs = true → totalTime evs < TIMEOUT →
      strHas (concatChunks evs) ">" = false →
      send_command st cmd evs = ("Error: timed out", st)) := by
  constructor
  · intro st cmd evs hs hco htime
    obtain ⟨k, hk, heq⟩ := recvLoop_chunks evs "" 0 hco (by omega)
    refine ⟨k, hk, ?_⟩
    rw [send_command, if_neg (by simp [hs]), heq]
    simp [String.empty_append]
  · intro st cmd evs hs hco htime hp
    rw [send_command, if_neg (by simp [hs])]
    rw [recvLoop_exhaust evs "" 0 hco (by omega) (by rw [String.empty_append]; exact hp)]
    rfl

/-- C3 witness: a script whose single read returns the full payload after
the whole time budget, and a script with one partial chunk followed by
silence, whose data is discarded in favour of the timeout error text. -/
theorem send_timeout_returns_accumulated_witness :
    (∃ k, k ≤ 1 ∧ send_command stConn "010D" [RecvEvent.chunk "41 0D 3C" 2]
        = (normalizeResp "010D" (concatChunks ([RecvEvent.chunk "41 0D 3C" 2].take k)), stConn))
    ∧ send_command stConn "010D" [RecvEvent.chunk "41" 0] = ("Error: timed out", stConn) :=
  ⟨send_timeout_returns_accumulated.1 stConn "010D" [RecvEvent.chunk "41 0D 3C" 2]
      rfl (by decide) (by decide),
   send_timeout_returns_accumulated.2 stConn "010D" [RecvEvent.chunk "41" 0]
      rfl (by decide) (by decide) (by decide)⟩

-- C5: socket errors and the connection state.

/-- C5 counterexample: a socket-level error during a command exchange does
not tear anything down — the result state still reports a connected link
holding a live socket, and only the error text is returned. -/
theorem socket_error_state_cex :
    (send_command stConn "010D" [RecvEvent.exc "Connection reset by peer"]).1
        = "Error: Connection reset by peer"
    ∧ (send_command stConn "010D" [RecvEvent.exc "Connection reset by peer"]).2.is_connected
        = true
    ∧ (send_command stConn "010D" [RecvEvent.exc "Connection reset by peer"]).2.socket
        = some () := by
  refine ⟨by decide, by decide, by decide⟩

/-- C5 amended: only a transport failure inside `connect_obd` clears the
connected flag and drops the socket; `send_command` never modifies the
connection state at all, so an error during a command exchange leaves the
link marked connected with the socket still held, surfacing only an error
string. -/
theorem error_state_transitions :
    (∀ (st : ConnState) (cmd : String) (evs : List RecvEvent),
        (send_command st cmd evs).2 = st)
    ∧ (∀ (st : ConnState) (prof : Option Profile) (m : String) (f : String → String),
        (connect_obd st prof true m f).state.is_connected = false
        ∧ (connect_obd st prof true m f).state.socket = none
        ∧ (connect_obd st prof true m f).ok = false) := by
  constructor
  · intro st cmd evs
    rw [send_command]
    split
    · rfl
    · split <;> rfl
  · intro st prof m f
    exact ⟨rfl, rfl, rfl⟩

-- C10: behaviour of the public operations when the link is not connected.

/-- Intermediate state during initialization: socket held, flag not yet set. -/
def stHalf : ConnState := ⟨some (), false, none⟩

/-- Fully disconnected state: no socket, flag unset. -/
def stNone : ConnState := ⟨none, false, none⟩

/-- An adapter that always replies "NO DATA". -/
def respNoData : String → String := fun _ => "NO DATA"

/-- C10 counterexample: with a socket held but the connected flag false,
`send_command` does not return "Not connected" — it performs the exchange on
the wire and returns the normalized reply. -/
theorem send_guard_flag_cex :
    stHalf.is_connected = false
    ∧ (send_command stHalf "ATZ" [RecvEvent.chunk "OK>" 0]).1 = "OK" := by
  refine ⟨rfl, by decide⟩

/-- C10 amended: `send_command` returns the fixed string "Not connected"
exactly when no socket is held (the connected flag is not consulted), while
reading trouble codes returns the empty sequence and clearing returns
failure, each without sending any command, whenever the flag is false or no
socket is held. -/
theorem disconnected_degradation :
    (∀ (st : ConnState) (cmd : String) (evs : List RecvEvent), st.socket = none →
        send_command st cmd evs = ("Not connected", st))
    ∧ (∀ (st : ConnState) (f : String → String),
        st.is_connected = false ∨ st.socket = none → read_dtc st f = ([], []))
    ∧ (∀ (st : ConnState) (f : String → String),
        st.is_connected = false ∨ st.socket = none → clear_dtc st f = (false, [])) := by
  refine ⟨?_, ?_, ?_⟩
  · intro st cmd evs h
    rw [send_command, if_pos h]
  · intro st f h
    rw [read_dtc, if_pos h]
  · intro st f h
    rw [clear_dtc, if_pos h]

/-- C10 witness: the degradation applied at the fully disconnected state. -/
theorem disconnected_degradation_witness :
    send_command stNone "010D" [] = ("Not connected", stNone)
    ∧ read_dtc stNone respNoData = ([], [])
    ∧ clear_dtc stNone respNoData = (false, []) :=
  ⟨disconnected_degradation.1 stNone "010D" [] rfl,
   disconnected_degradation.2.1 stNone respNoData (Or.inr rfl),
   disconnected_degradation.2.2 stNone respNoData (Or.inr rfl)⟩

-- C4: the initialization log.

/-- An adapter giving a distinct fixed reply to each setup command, with a
non-affirmative reply to both protocol-select commands of the Fiat profile. -/
def cexFramer : String → String := fun c =>
  if c = CMD_RESET then "ELMRESET"
  else if c = CMD_VERSION then "V15"
  else if c = CMD_ECHO_OFF then "ECHOOFF"
  else if c = CMD_HEADERS_OFF then "HDROFF"
  else if c = CMD_LINEFEEDS_OFF then "LFOFF"
  else if c = CMD_KWP2000 then "NG1"
  else if c = CMD_ISO9141 then "NG2"
  else if c = "ATDP" then "KWP"
  else "X"

/-- C4 counterexample: with the Fiat profile and `cexFramer`, the echo-off,
headers-off and line-feeds-off steps as well as both protocol-select attempts
are executed (visible on the command trace) yet none of their responses
appears anywhere in the returned log, which has exactly three entries. -/
theorem init_log_missing_steps_cex :
    (connect_obd stNone (some fiatProfile) false "" cexFramer).log
        = ["Reset: ELMRESET", "Version: V15", "Protocol: KWP"]
    ∧ (connect_obd stNone (some fiatProfile) false "" cexFramer).cmds
        = [CMD_RESET, CMD_VERSION, CMD_ECHO_OFF, CMD_HEADERS_OFF, CMD_LINEFEEDS_OFF,
           CMD_KWP2000, CMD_ISO9141, "ATDP"]
    ∧ strHas (String.intercalate "\n"
        (connect_obd stNone (some fiatProfile) false "" cexFramer).log) "ECHOOFF" = false
    ∧ strHas (String.intercalate "\n"
        (connect_obd stNone (some fiatProfile) false "" cexFramer).log) "NG1" = false
    ∧ strHas (String.intercalate "\n"
        (connect_obd stNone (some fiatProfile) false "" cexFramer).log) "NG2" = false := by
  refine ⟨by decide, by decide, by decide, by decide, by decide⟩

/-- C4 amended: the returned log always has exactly three entries — the
reset response, the firmware-version response and the active-protocol query
response; the replies to the echo-off, headers-off and line-feeds-off steps
and to the protocol-select attempts are discarded and never appear in the
log. -/
theorem init_log_contents :
    ∀ (st : ConnState) (prof : Option Profile) (f : String → String),
      (connect_obd st prof false "" f).log
        = ["Reset: " ++ f CMD_RESET, "Version: " ++ f CMD_VERSION,
           "Protocol: " ++ f "ATDP"] := by
  intro st prof f
  cases prof with
  | none => rfl
  | some p => rfl

-- C7: protocol selection with fallback.

/-- C7: with a profile, the initializer sends the primary protocol-select
command and, exactly when its reply lacks the "OK" token, the fallback
command exactly once more (never otherwise); without a profile it sends the
auto-detect command; in all cases the `ATDP` query follows last and its reply
is recorded as the detected protocol. -/
theorem protocol_fallback_behavior :
    (∀ (st : ConnState) (p : Profile) (f : String → String),
        (connect_obd st (some p) false "" f).cmds =
          if strHas (f p.protocol_cmd) "OK" = true then
            [CMD_RESET, CMD_VERSION, CMD_ECHO_OFF, CMD_HEADERS_OFF, CMD_LINEFEEDS_OFF,
             p.protocol_cmd, "ATDP"]
          else
            [CMD_RESET, CMD_VERSION, CMD_ECHO_OFF, CMD_HEADERS_OFF, CMD_LINEFEEDS_OFF,
             p.protocol_cmd, p.fallback_cmd, "ATDP"])
    ∧ (∀ (st : ConnState) (p : Profile) (f : String → String),
        (connect_obd st (some p) false "" f).state.protocol_detected = some (f "ATDP"))
    ∧ (∀ (st : ConnState) (f : String → String),
        (connect_obd st none false "" f).cmds =
          [CMD_RESET, CMD_VERSION, CMD_ECHO_OFF, CMD_HEADERS_OFF, CMD_LINEFEEDS_OFF,
           CMD_AUTO_PROTOCOL, "ATDP"])
    ∧ (∀ (st : ConnState) (f : String → String),
        (connect_obd st none false "" f).state.protocol_detected = some (f "ATDP")) := by
  refine ⟨?_, ?_, ?_, ?_⟩
  · intro st p f
    rw [connect_obd]
    simp only [sendC, Bool.false_eq_true, if_false]
    by_cases h : strHas (f p.protocol_cmd) "OK" = true <;> simp [h]
  · intro st p f
    rfl
  · intro st f
    rfl
  · intro st f
    rfl

-- C6: unavailable results of the metric decoder.

/-- The identifiers whose decode rule consumes one trailing byte. -/
def singleBytePids : List String :=
  [PID_SPEED, PID_ENGINE_TEMP, PID_FUEL_LEVEL, PID_INTAKE_PRESSURE, PID_FIAT_TURBO_PRESSURE,
   PID_VAG_BOOST_PRESSURE, PID_FIAT_CLUTCH_STATUS, PID_TOYOTA_FUEL_CONSUMPTION,
   PID_TOYOTA_HYBRID_BATTERY, PID_VAG_OIL_TEMP]

/-- C6 counterexample: the trailing substring "+3" contains the non-hex
character '+', yet the decoder returns the value 3 rather than unavailable,
because Python's `int(s, 16)` accepts a sign. -/
theorem plus_sign_hex_cex :
    parse_pid_response "410B+3" PID_INTAKE_PRESSURE = some 3
    ∧ isHexCh '+' = false := by
  refine ⟨by decide, by decide⟩

/-- C6 amended: empty responses and responses containing "NO DATA" or
"ERROR" decode to unavailable for every identifier; a stripped response too
short for the declared byte count decodes to unavailable; and a trailing
substring rejected by Python's `int(s, 16)` decodes to unavailable — but a
substring accepted by `int` despite non-hex characters (sign, whitespace,
underscore, `0x` prefix) yields its parsed value instead. -/
theorem decoder_unavailable_conditions :
    (∀ (pid resp : String),
        strHas resp "NO DATA" = true ∨ strHas resp "ERROR" = true ∨ resp.data = [] →
        parse_pid_response resp pid = none)
    ∧ (∀ (pid resp : String), pid ∈ singleBytePids →
        (pyStripSpaces resp).length < 4 → parse_pid_response resp pid = none)
    ∧ (∀ (resp : String), (pyStripSpaces resp).length < 6 →
        parse_pid_response resp PID_RPM = none)
    ∧ (∀ (pid resp : String), pid ∈ singleBytePids →
        pyIntHex ((pyStripSpaces resp).drop ((pyStripSpaces resp).length - 2)) = none →
        parse_pid_response resp pid = none)
    ∧ (∀ (resp : String),
        pyIntHex (((pyStripSpaces resp).drop ((pyStripSpaces resp).length - 4)).take 2) = none ∨
          pyIntHex ((pyStripSpaces resp).drop ((pyStripSpaces resp).length - 2)) = none →
        parse_pid_response resp PID_RPM = none) := by
  refine ⟨?_, ?_, ?_, ?_, ?_⟩
  · intro pid resp h
    rw [parse_pid_response, if_pos h]
  · intro pid resp hmem hlen
    have h4 : ¬ 4 ≤ (pyStripSpaces resp).length := by omega
    fin_cases hmem <;> simp +decide [parse_pid_response, h4]
  · intro resp hlen
    have h6 : ¬ 6 ≤ (pyStripSpaces resp).length := by omega
    simp +decide [parse_pid_response, h6]
  · intro pid resp hmem hnone
    fin_cases hmem <;> simp +decide [parse_pid_response, hnone]
  · intro resp h
    rcases h with h | h
    · simp +decide [parse_pid_response, h]
    · rcases h1 : pyIntHex (((pyStripSpaces resp).drop ((pyStripSpaces resp).length - 4)).take 2)
        with _ | a
      · simp +decide [parse_pid_response, h1]
      · simp +decide [parse_pid_response, h1, h]

/-- C6 witness: a negative-marker response and a response with an
unparseable trailing substring both decode to unavailable. -/
theorem decoder_unavailable_conditions_witness :
    parse_pid_response "NO DATA" PID_SPEED = none
    ∧ parse_pid_response "410DZZ" PID_SPEED = none :=
  ⟨decoder_unavailable_conditions.1 PID_SPEED "NO DATA" (Or.inl (by decide)),
   decoder_unavailable_conditions.2.2.2.1 PID_SPEED "410DZZ" (by decide) (by decide)⟩

-- C9: the polling cycle.

/-- The profile-specific PID list of an optional profile. -/
def profPids : Option Profile → List (String × String)
  | some p => p.specific_pids
  | none => []

theorem pollSpecific_spec (f : String → String) :
    ∀ l : List (String × String),
      (pollSpecific f l).1.map Prod.fst = l.map (fun np => pyKey np.1)
      ∧ (pollSpecific f l).2 = l.map Prod.snd := by
  intro l
  induction l with
  | nil => exact ⟨rfl, rfl⟩
  | cons np rest ih =>
    cases np with
    | mk name pid => simp [pollSpecific, ih.1, ih.2]

/-- C9 counterexample: the snapshot emitted by one polling cycle holds only
the metric results; it contains no "timestamp" key (the collaborator adds the
timestamp when logging, outside the polling loop). -/
theorem snapshot_no_timestamp_cex :
    (poll_cycle none respNoData).1
        = [("speed", none), ("rpm", none), ("engine_temp", none), ("fuel_level", none),
           ("intake_pressure", none)]
    ∧ ((poll_cycle none respNoData).1.map Prod.fst).contains "timestamp" = false := by
  refine ⟨by decide, by decide⟩

/-- C9 amended: each polling cycle issues the standard parameter requests in
the fixed order speed, engine speed, coolant temperature, fuel level, intake
pressure, then the profile-specific requests in declared order, and emits one
snapshot whose keys are exactly the corresponding metric names in that order;
the snapshot carries no capture timestamp (the collaborator attaches one when
logging). -/
theorem poll_cycle_order (prof : Option Profile) (f : String → String)
    (h : ∀ np ∈ profPids prof, pyKey np.1 ≠ "timestamp") :
    (poll_cycle prof f).2
      = [PID_SPEED, PID_RPM, PID_ENGINE_TEMP, PID_FUEL_LEVEL, PID_INTAKE_PRESSURE]
        ++ (profPids prof).map Prod.snd
    ∧ (poll_cycle prof f).1.map Prod.fst
      = ["speed", "rpm", "engine_temp", "fuel_level", "intake_pressure"]
        ++ (profPids prof).map (fun np => pyKey np.1)
    ∧ ¬ "timestamp" ∈ (poll_cycle prof f).1.map Prod.fst := by
  cases prof with
  | none =>
    refine ⟨rfl, rfl, ?_⟩
    have hk : (poll_cycle none f).1.map Prod.fst
        = ["speed", "rpm", "engine_temp", "fuel_level", "intake_pressure"] := rfl
    rw [hk]
    decide
  | some p =>
    have hk : (poll_cycle (some p) f).1.map Prod.fst
        = ["speed", "rpm", "engine_temp", "fuel_level", "intake_pressure"]
          ++ p.specific_pids.map (fun np => pyKey np.1) := by
      simp [poll_cycle, (pollSpecific_spec f p.specific_pids).1]
    refine ⟨?_, hk, ?_⟩
    · simp [poll_cycle, profPids, (pollSpecific_spec f p.specific_pids).2]
    · rw [hk]
      intro hmem
      rcases List.mem_append.mp hmem with hmem | hmem
      · simp at hmem
      · obtain ⟨np, hnp, heq⟩ := List.mem_map.mp hmem
        exact h np hnp heq

/-- C9 witness: the cycle shape with the Fiat profile and an adapter
answering "NO DATA" to everything. -/
theorem poll_cycle_order_witness :
    (poll_cycle (some fiatProfile) respNoData).2
      = [PID_SPEED, PID_RPM, PID_ENGINE_TEMP, PID_FUEL_LEVEL, PID_INTAKE_PRESSURE]
        ++ (profPids (some fiatProfile)).map Prod.snd
    ∧ (poll_cycle (some fiatProfile) respNoData).1.map Prod.fst
      = ["speed", "rpm", "engine_temp", "fuel_level", "intake_pressure"]
        ++ (profPids (some fiatProfile)).map (fun np => pyKey np.1)
    ∧ ¬ "timestamp" ∈ (poll_cycle (some fiatProfile) respNoData).1.map Prod.fst :=
  poll_cycle_order (some fiatProfile) respNoData (by decide)
